import Mathlib

set_option maxHeartbeats 1000000
set_option maxRecDepth 100000

/-!
# Shallow embedding of the `twitscrape` scraper

This file embeds the core of the `twitscrape` Go package: the three-pass
per-page record extraction (`Scrape.tweets`) and the cursor-driven
pagination loop (`Scrape.Tweets`), plus the older package-level `Tweets`
variant whose `minID` cursor is a package-wide variable.

Modelling conventions:
* Machine-level externals (HTTP transport, JSON decoding, the goquery
  HTML parser, `url.QueryEscape`, `time.Parse`) are abstracted at their
  interfaces: a page is a `Doc` holding the three independently selected
  fragment lists, the transport is a function from URL strings to
  results, and timestamp parsing is an oracle `String → Option Nat`
  (`none` = parse failure, matching Go's `time.Parse` error).
* Go slice indexing that can fault is modelled explicitly: a result
  value `GoRes.panicked` stands for a Go runtime panic
  (index out of range), which in Go aborts the whole call chain.
* The unbounded `for` loop is modelled with fuel; running out of fuel
  yields the artificial result `LoopRes.fuelOut` (the real loop is still
  running), which no theorem below interprets as a program outcome.
* Ghost observations that do not influence behaviour are threaded
  through for specification purposes only: the list of issued fetches
  (`Fetch` records the URL and the cursor values used to build it), the
  final cursor state, and `minSets`, a counter of how many times the
  `minID` variable was assigned.
-/

/-- Go struct `Tweet` (src/unnamed/part_000 lines 49-60): permalink,
screen name, timestamp (abstract instant, `0` is Go's zero `time.Time`),
contents, tweet ID. -/
structure Tweet where
  permalink : String
  name : String
  timestamp : Nat
  contents : String
  id : String
deriving Repr, DecidableEq, Inhabited

/-- The Go zero value `Tweet` with every field empty, appended as a
placeholder for malformed identity fragments. -/
def emptyTweet : Tweet := ⟨"", "", 0, "", ""⟩

/-- Errors surfaced by fetching/extraction: the sentinel `errNoTweets`
("tweets: no tweets found") and hard transport/decode/parse failures. -/
inductive ScrErr where
  | noTweets
  | hard (msg : String)
deriving Repr, DecidableEq

/-- Result of a Go call that can also die with a runtime panic:
`ok` = normal return, `fail` = returned error (with `nil` slice),
`panicked` = runtime panic (no return at all). -/
inductive GoRes (α : Type) where
  | ok (a : α)
  | fail (e : ScrErr)
  | panicked
deriving Repr, DecidableEq

/-- One page of markup, abstracted at the goquery interface: the three
independently selected fragment sets, in document order.
`identity` holds the `data-permalink-path` attribute of each identity
fragment (`none` when the attribute is missing); `stamps` holds the
`title` attribute of each timestamp fragment; `texts` holds the text of
each content fragment. `identity = []` models `sel.Nodes == nil`. -/
structure Doc where
  identity : List (Option String)
  stamps : List (Option String)
  texts : List String
deriving Repr, DecidableEq

/-- Go `strings.Split` specialised to a one-character separator, over a
character list: splits at every occurrence of `sep`, keeping empty
pieces, never returning an empty list. -/
def splitCharList (sep : Char) : List Char → List (List Char)
  | [] => [[]]
  | c :: cs =>
    match splitCharList sep cs with
    | [] => [[]]
    | g :: gs => if c = sep then [] :: g :: gs else (c :: g) :: gs

/-- Go `strings.Split(p, "/")`. -/
def splitSlash (p : String) : List String :=
  (splitCharList '/' p.data).map String.mk

/-- Character class of Go `strings.Trim(s, " \n")`. -/
def goTrimPred (c : Char) : Bool := c = ' ' || c = '\n'

/-- Go `strings.Trim(s, " \n")`: strip leading and trailing spaces and
newlines. -/
def goTrim (s : String) : String :=
  String.mk (((s.data.dropWhile goTrimPred).reverse.dropWhile goTrimPred).reverse)

/-- Pass 1 of `Scrape.tweets` (part_000 lines 155-171): for each
identity fragment in document order, read `data-permalink-path`; on a
missing attribute or a slash-split with fewer than 4 pieces append the
empty placeholder tweet, otherwise build the tweet from the path
(`https://www.twitter.com` + path, name = piece 1, id = piece 3). -/
def pass1 : List (Option String) → List Tweet
  | [] => []
  | none :: rest => emptyTweet :: pass1 rest
  | some p :: rest =>
    let sl := splitSlash p
    if sl.length < 4 then emptyTweet :: pass1 rest
    else { permalink := "https://www.twitter.com" ++ p, name := sl.getD 1 "",
           timestamp := 0, contents := "", id := sl.getD 3 "" } :: pass1 rest

/-- Pass 2 of `Scrape.tweets` (part_000 lines 174-190): for the `i`-th
timestamp fragment, a missing `title` attribute is skipped; with the
attribute present, the Go guard skips only when `i > len(tweets)`;
otherwise Go parses the time (zero time on parse failure) and writes
`tweets[i].Timestamp`, which panics when `i = len(tweets)`. -/
def pass2 (parse : String → Option Nat) :
    List Tweet → Nat → List (Option String) → GoRes (List Tweet)
  | tws, _, [] => .ok tws
  | tws, i, none :: rest => pass2 parse tws (i+1) rest
  | tws, i, some t :: rest =>
    if i > tws.length then pass2 parse tws (i+1) rest
    else if h : i < tws.length then
      pass2 parse (tws.set i { tws.get ⟨i, h⟩ with timestamp := (parse t).getD 0 })
        (i+1) rest
    else .panicked

/-- Pass 3 of `Scrape.tweets` (part_000 lines 193-204): for the `i`-th
content fragment, trim surrounding spaces/newlines; an empty trimmed
text is skipped; the Go guard skips only when `i > len(tweets)`;
otherwise Go writes `tweets[i].Contents`, which panics when
`i = len(tweets)`. -/
def pass3 : List Tweet → Nat → List String → GoRes (List Tweet)
  | tws, _, [] => .ok tws
  | tws, i, s :: rest =>
    let t := goTrim s
    if t = "" then pass3 tws (i+1) rest
    else if i > tws.length then pass3 tws (i+1) rest
    else if h : i < tws.length then
      pass3 (tws.set i { tws.get ⟨i, h⟩ with contents := t }) (i+1) rest
    else .panicked

/-- `Scrape.tweets` (part_000 lines 138-208), starting from an already
fetched and parsed page: an empty identity selection returns the
`errNoTweets` sentinel, otherwise the three passes run in order over the
record list fixed by pass 1. -/
def Scrape.tweets (parse : String → Option Nat) (d : Doc) : GoRes (List Tweet) :=
  if d.identity.isEmpty then .fail .noTweets
  else
    match pass2 parse (pass1 d.identity) 0 d.stamps with
    | .ok tws2 => pass3 tws2 0 d.texts
    | .fail e => .fail e
    | .panicked => .panicked

/-- `Scrape.tweets` composed with its page source (`getHTML` + goquery
parse, part_000 lines 139-146 and 212-230): a transport or decode
failure is returned as a hard error (`return nil, err`), a good payload
goes through extraction. -/
def Scrape.srcOf (fetch : String → GoRes Doc) (parse : String → Option Nat) :
    String → GoRes (List Tweet) :=
  fun u =>
    match fetch u with
    | .ok d => Scrape.tweets parse d
    | .fail e => .fail e
    | .panicked => .panicked

/-- Go `strings.Replace(s, " ", "%20", -1)` (part_000 line 92). -/
def replaceSpaces (s : String) : String :=
  String.mk (s.data.foldr
    (fun c acc => if c = ' ' then '%' :: '2' :: '0' :: acc else c :: acc) [])

/-- The `fmt.Sprintf(searchf, q, since, until)` of part_000 lines 89-91,
with `q` standing for the already query-escaped search term and the two
dates already formatted as `2006-01-02` (escaping and date formatting
are Go stdlib externals). -/
def searchRaw (q since until_ : String) : String :=
  "https://twitter.com/i/search/timeline?f=tweets&vertical=default&q=" ++ q ++
    " since:" ++ since ++ " until:" ++ until_ ++ "&src=typd"

/-- The token-free search URL: the sprintf result with every space
replaced by `%20` (part_000 line 92). -/
def searchBase (q since until_ : String) : String :=
  replaceSpaces (searchRaw q since until_)

/-- The URL builder `f` (part_000 lines 88-103): append the
`max_position` cursor token exactly when `maxID` is non-empty. -/
def buildURL (base maxID minID : String) : String :=
  if maxID ≠ "" then base ++ "&max_position=TWEET-" ++ maxID ++ "-" ++ minID
  else base

/-- Cursor state of one pagination loop: `minID` and `maxID` as in
part_000 lines 82-86, the accumulated tweets `acc`, and the ghost
counter `minSets` of how many times `minID` has been assigned. -/
structure LoopSt where
  minID : String
  maxID : String
  acc : List Tweet
  minSets : Nat
deriving Repr, DecidableEq

/-- Ghost record of one issued fetch: the URL passed to the page source
and the `maxID`/`minID` values it was built from. -/
structure Fetch where
  url : String
  maxAt : String
  minAt : String
deriving Repr, DecidableEq

/-- Outcome of the pagination loop: `ok t` = `return t, nil`;
`err e` = `return nil, e` (the slice result is nil — accumulated
records are discarded); `panicked` = a runtime panic propagated out of
extraction; `emptyBatch` = the loop's own `tw[0]` / `tw[len(tw)-1]`
indexing on an empty batch panicked; `fuelOut` = fuel artefact. -/
inductive LoopRes where
  | ok (tws : List Tweet)
  | err (e : ScrErr)
  | panicked
  | emptyBatch
  | fuelOut
deriving Repr, DecidableEq

/-- The pagination loop of `Scrape.Tweets` (part_000 lines 107-133),
parametrised by the composed per-URL page result `src` (URL build
errors, transport errors and decode errors all surface as `return nil,
err`, so they are merged into `src`'s hard failures). Each iteration
builds the URL from the current cursor state, fetches, and on a good
batch sets `minID` (only while still empty, from the first record),
appends the batch, sets `maxID` to the last record's ID, and stops when
`maxID = minID`. Returns the Go result together with the ghost fetch
trace and ghost final state. -/
def Scrape.TweetsGo (src : String → GoRes (List Tweet)) (base : String) :
    Nat → LoopSt → LoopRes × List Fetch × LoopSt
  | 0, st => (.fuelOut, [], st)
  | fuel+1, st =>
    let u := buildURL base st.maxID st.minID
    let fe : Fetch := ⟨u, st.maxID, st.minID⟩
    match src u with
    | .fail .noTweets => (.ok st.acc, [fe], st)
    | .fail (.hard m) => (.err (.hard m), [fe], st)
    | .panicked => (.panicked, [fe], st)
    | .ok [] => (.emptyBatch, [fe], st)
    | .ok (t0 :: rest) =>
      let minID' := if st.minID = "" then t0.id else st.minID
      let sets' := if st.minID = "" then st.minSets + 1 else st.minSets
      let acc' := st.acc ++ (t0 :: rest)
      let maxID' := ((t0 :: rest).getLast (List.cons_ne_nil t0 rest)).id
      if maxID' = minID' then (.ok acc', [fe], ⟨minID', maxID', acc', sets'⟩)
      else
        let out := Scrape.TweetsGo src base fuel ⟨minID', maxID', acc', sets'⟩
        (out.1, fe :: out.2.1, out.2.2)

/-- One invocation of the method `Scrape.Tweets` (part_000 line 78):
both cursor variables start empty and nothing is accumulated. -/
def Scrape.Tweets (src : String → GoRes (List Tweet)) (base : String)
    (fuel : Nat) : LoopRes × List Fetch × LoopSt :=
  Scrape.TweetsGo src base fuel ⟨"", "", [], 0⟩

/-- One invocation of the package-level `Tweets` (src/unnamed/part_001
lines 78-125). Its loop body is the same as the method variant's except
that `minID` is the package-wide variable (part_001 lines 63-69): the
invocation starts from the global's current value `gMin` (instead of a
fresh empty local) and the global's value after the call is the final
state's `minID`. -/
def pkgTweets (src : String → GoRes (List Tweet)) (base : String)
    (gMin : String) (fuel : Nat) : LoopRes × List Fetch × LoopSt :=
  Scrape.TweetsGo src base fuel ⟨gMin, "", [], 0⟩

/-- Ghost step relation between consecutive issued fetches: the earlier
fetch returned a non-empty batch, the later fetch's `maxAt` is that
batch's last record ID and its `minAt` is the earlier `minAt`, updated
from the batch's first record if it was still empty. -/
def stepRel (src : String → GoRes (List Tweet)) (fe fe' : Fetch) : Prop :=
  ∃ t0 rest, src fe.url = .ok (t0 :: rest) ∧
    fe'.maxAt = ((t0 :: rest).getLast (List.cons_ne_nil t0 rest)).id ∧
    fe'.minAt = (if fe.minAt = "" then t0.id else fe.minAt)

/-- An identity fragment is malformed in the sense of pass 1: the
permalink attribute is missing, or its slash-split has fewer than 4
pieces. -/
def badFrag : Option String → Bool
  | none => true
  | some p => decide ((splitSlash p).length < 4)

/-- A page record with ID `"a"` (all other fields empty). -/
def tweetA : Tweet := { emptyTweet with id := "a" }

/-- A page record with ID `"b"` (all other fields empty). -/
def tweetB : Tweet := { emptyTweet with id := "b" }

/-- A page record with ID `"c"` (all other fields empty). -/
def tweetC : Tweet := { emptyTweet with id := "c" }

/-- A page record with ID `"x"` (all other fields empty). -/
def tweetX : Tweet := { emptyTweet with id := "x" }

/-- A page with one well-formed identity fragment, no timestamp
fragments and two non-empty content fragments: pass 3's second
fragment arrives at index 1 = N. -/
def c1doc : Doc := ⟨[some "/u/status/5"], [], ["a", "b"]⟩

/-- A page with one well-formed identity fragment and two timestamp
fragments carrying a title attribute: pass 2's second fragment arrives
at index 1 = N. -/
def c3doc : Doc := ⟨[some "/u/status/5"], [some "T1", some "T2"], []⟩

/-- Concrete token-free search URL (the one of the repository's own
test fixture). -/
def fixBase : String := searchBase "%23golang" "2009-11-10" "2009-11-11"

/-- A page source whose first page ends in a placeholder record with an
empty ID: the base URL yields a record `"a"` followed by the empty
placeholder; everything else reports no tweets. -/
def c4src : String → GoRes (List Tweet) := fun u =>
  if u = fixBase then .ok [tweetA, emptyTweet] else .fail .noTweets

/-- A page source whose first page starts with a placeholder record
with an empty ID; the follow-up cursor URL (built while `minID` is
still empty) yields one record `"c"`. -/
def c5src : String → GoRes (List Tweet) := fun u =>
  if u = fixBase then .ok [emptyTweet, tweetA]
  else if u = buildURL fixBase "a" "" then .ok [tweetC]
  else .fail .noTweets

/-- A page source whose first page starts with a placeholder record:
the base URL yields the placeholder then record `"a"`; the cursor URL
built with an empty `minID` yields record `"b"`; every other URL
(in particular the cursor URL built with a non-empty leaked `minID`)
reports no tweets. -/
def c9src : String → GoRes (List Tweet) := fun u =>
  if u = fixBase then .ok [emptyTweet, tweetA]
  else if u = buildURL fixBase "a" "" then .ok [tweetB]
  else .fail .noTweets

/-! ## Helper lemmas -/

/-- Pass 1 creates exactly one record per identity fragment. -/
theorem pass1_length (l : List (Option String)) : (pass1 l).length = l.length := by
  induction l with
  | nil => rfl
  | cons a rest ih =>
    cases a with
    | none => simpa [pass1] using ih
    | some p =>
      simp only [pass1]
      split <;> simpa using ih

/-- Pass 2 never changes the number of records when it returns. -/
theorem pass2_ok_length (parse : String → Option Nat) :
    ∀ (stamps : List (Option String)) (tws : List Tweet) (i : Nat)
      (out : List Tweet), pass2 parse tws i stamps = .ok out →
      out.length = tws.length := by
  intro stamps
  induction stamps with
  | nil =>
    intro tws i out h
    simp only [pass2, GoRes.ok.injEq] at h
    rw [h]
  | cons a rest ih =>
    intro tws i out h
    cases a with
    | none => exact ih tws (i+1) out h
    | some t =>
      simp only [pass2] at h
      split at h
      · exact ih tws (i+1) out h
      · split at h
        · have := ih _ (i+1) out h
          simpa [List.length_set] using this
        · cases h

/-- Pass 3 never changes the number of records when it returns. -/
theorem pass3_ok_length :
    ∀ (texts : List String) (tws : List Tweet) (i : Nat) (out : List Tweet),
      pass3 tws i texts = .ok out → out.length = tws.length := by
  intro texts
  induction texts with
  | nil =>
    intro tws i out h
    simp only [pass3, GoRes.ok.injEq] at h
    rw [h]
  | cons s rest ih =>
    intro tws i out h
    simp only [pass3] at h
    split at h
    · exact ih tws (i+1) out h
    · split at h
      · exact ih tws (i+1) out h
      · split at h
        · have := ih _ (i+1) out h
          simpa [List.length_set] using this
        · cases h

/-- When extraction returns normally, it returns exactly one record per
identity fragment of the page. -/
theorem tweets_ok_length (parse : String → Option Nat) (d : Doc)
    (tws : List Tweet) (h : Scrape.tweets parse d = .ok tws) :
    tws.length = d.identity.length := by
  unfold Scrape.tweets at h
  split at h
  · cases h
  · rename_i hne
    cases h2 : pass2 parse (pass1 d.identity) 0 d.stamps with
    | ok tws2 =>
      rw [h2] at h
      have h3 := pass3_ok_length d.texts tws2 0 tws h
      have h2l := pass2_ok_length parse d.stamps (pass1 d.identity) 0 tws2 h2
      rw [h3, h2l, pass1_length]
    | fail e => rw [h2] at h; cases h
    | panicked => rw [h2] at h; cases h

/-- When extraction returns normally, the returned batch is non-empty. -/
theorem tweets_ok_ne_nil (parse : String → Option Nat) (d : Doc)
    (tws : List Tweet) (h : Scrape.tweets parse d = .ok tws) : tws ≠ [] := by
  have hl := tweets_ok_length parse d tws h
  have : ¬ d.identity.isEmpty := by
    unfold Scrape.tweets at h
    split at h
    · cases h
    · assumption
  intro hnil
  rw [hnil] at hl
  simp only [List.length_nil] at hl
  rw [List.isEmpty_iff_length_eq_zero] at this
  omega

/-- If the page source only ever returns non-empty batches, the loop's
own `tw[0]` / `tw[len(tw)-1]` indexing never panics. -/
theorem TweetsGo_no_emptyBatch (src : String → GoRes (List Tweet))
    (base : String) (hsrc : ∀ u tws, src u = .ok tws → tws ≠ []) :
    ∀ (fuel : Nat) (st : LoopSt),
      (Scrape.TweetsGo src base fuel st).1 ≠ .emptyBatch := by
  intro fuel
  induction fuel with
  | zero => intro st; simp [Scrape.TweetsGo]
  | succ n ih =>
    intro st
    simp only [Scrape.TweetsGo]
    cases h : src (buildURL base st.maxID st.minID) with
    | ok tws =>
      cases tws with
      | nil => exact absurd rfl (hsrc _ _ h)
      | cons t0 rest =>
        simp only []
        split <;> split
        · simp
        · exact ih _
        · simp
        · exact ih _
    | fail e => cases e <;> simp
    | panicked => simp

/-- Once `minID` is non-empty it is never assigned again: the final
state keeps it (and the assignment counter), and every issued fetch is
built with it. -/
theorem TweetsGo_min_persist (src : String → GoRes (List Tweet))
    (base : String) :
    ∀ (fuel : Nat) (st : LoopSt), st.minID ≠ "" →
      (Scrape.TweetsGo src base fuel st).2.2.minID = st.minID ∧
      (Scrape.TweetsGo src base fuel st).2.2.minSets = st.minSets ∧
      ∀ fe ∈ (Scrape.TweetsGo src base fuel st).2.1, fe.minAt = st.minID := by
  intro fuel
  induction fuel with
  | zero => intro st h; simp [Scrape.TweetsGo]
  | succ n ih =>
    intro st h
    simp only [Scrape.TweetsGo]
    cases hs : src (buildURL base st.maxID st.minID) with
    | ok tws =>
      cases tws with
      | nil => simp
      | cons t0 rest =>
        simp only [if_neg h]
        split
        · simp
        · have := ih ⟨st.minID, ((t0 :: rest).getLast (List.cons_ne_nil t0 rest)).id,
            st.acc ++ (t0 :: rest), st.minSets⟩ h
          refine ⟨this.1, this.2.1, ?_⟩
          intro fe hfe
          simp only [List.mem_cons] at hfe
          rcases hfe with hfe | hfe
          · rw [hfe]
          · exact this.2.2 fe hfe
    | fail e => cases e <;> simp
    | panicked => simp

/-- The Go result of the loop does not depend on the ghost assignment
counter in the state. -/
theorem TweetsGo_fst_sets_irrel (src : String → GoRes (List Tweet))
    (base : String) :
    ∀ (fuel : Nat) (mn mx : String) (a : List Tweet) (s1 s2 : Nat),
      (Scrape.TweetsGo src base fuel ⟨mn, mx, a, s1⟩).1 =
      (Scrape.TweetsGo src base fuel ⟨mn, mx, a, s2⟩).1 := by
  intro fuel
  induction fuel with
  | zero => intro mn mx a s1 s2; rfl
  | succ n ih =>
    intro mn mx a s1 s2
    simp only [Scrape.TweetsGo]
    cases hs : src (buildURL base mx mn) with
    | ok tws =>
      cases tws with
      | nil => rfl
      | cons t0 rest =>
        simp only []
        split <;> split
        · rfl
        · exact ih _ _ _ _ _
        · rfl
        · exact ih _ _ _ _ _
    | fail e => cases e <;> rfl
    | panicked => rfl

/-- Shape of the ghost fetch trace: every fetch's URL is built from the
cursor values recorded with it, the first fetch uses the entry state's
cursors, and consecutive fetches are related by `stepRel`. -/
theorem TweetsGo_trace_inv (src : String → GoRes (List Tweet))
    (base : String) :
    ∀ (fuel : Nat) (st : LoopSt),
      (∀ fe ∈ (Scrape.TweetsGo src base fuel st).2.1,
        fe.url = buildURL base fe.maxAt fe.minAt) ∧
      (∀ fe ∈ (Scrape.TweetsGo src base fuel st).2.1.head?,
        fe.maxAt = st.maxID ∧ fe.minAt = st.minID) ∧
      List.Chain' (stepRel src) (Scrape.TweetsGo src base fuel st).2.1 := by
  intro fuel
  induction fuel with
  | zero => intro st; simp [Scrape.TweetsGo]
  | succ n ih =>
    intro st
    simp only [Scrape.TweetsGo]
    cases hs : src (buildURL base st.maxID st.minID) with
    | ok tws =>
      cases tws with
      | nil => simp
      | cons t0 rest =>
        simp only []
        split <;> split
        · refine ⟨?_, ?_, ?_⟩
          · intro fe hfe
            simp only [List.mem_singleton] at hfe
            subst hfe
            rfl
          · intro fe hfe
            simp only [List.head?_cons, Option.mem_def, Option.some.injEq] at hfe
            subst hfe
            exact ⟨rfl, rfl⟩
          · exact List.chain'_singleton _
        · rename_i hmin hne
          have hrec := ih ⟨t0.id, ((t0 :: rest).getLast (List.cons_ne_nil t0 rest)).id,
            st.acc ++ (t0 :: rest), st.minSets + 1⟩
          refine ⟨?_, ?_, ?_⟩
          · intro fe hfe
            simp only [List.mem_cons] at hfe
            rcases hfe with hfe | hfe
            · subst hfe; rfl
            · exact hrec.1 fe hfe
          · intro fe hfe
            simp only [List.head?_cons, Option.mem_def, Option.some.injEq] at hfe
            subst hfe
            exact ⟨rfl, rfl⟩
          · rw [List.chain'_cons']
            refine ⟨?_, hrec.2.2⟩
            intro fe' hfe'
            have hh := hrec.2.1 fe' hfe'
            refine ⟨t0, rest, hs, ?_, ?_⟩
            · rw [hh.1]
            · rw [hh.2]
              simp [hmin]
        · refine ⟨?_, ?_, ?_⟩
          · intro fe hfe
            simp only [List.mem_singleton] at hfe
            subst hfe
            rfl
          · intro fe hfe
            simp only [List.head?_cons, Option.mem_def, Option.some.injEq] at hfe
            subst hfe
            exact ⟨rfl, rfl⟩
          · exact List.chain'_singleton _
        · rename_i hmin hne
          have hrec := ih ⟨st.minID, ((t0 :: rest).getLast (List.cons_ne_nil t0 rest)).id,
            st.acc ++ (t0 :: rest), st.minSets⟩
          refine ⟨?_, ?_, ?_⟩
          · intro fe hfe
            simp only [List.mem_cons] at hfe
            rcases hfe with hfe | hfe
            · subst hfe; rfl
            · exact hrec.1 fe hfe
          · intro fe hfe
            simp only [List.head?_cons, Option.mem_def, Option.some.injEq] at hfe
            subst hfe
            exact ⟨rfl, rfl⟩
          · rw [List.chain'_cons']
            refine ⟨?_, hrec.2.2⟩
            intro fe' hfe'
            have hh := hrec.2.1 fe' hfe'
            refine ⟨t0, rest, hs, ?_, ?_⟩
            · rw [hh.1]
            · rw [hh.2]
              simp [hmin]
    | fail e => cases e <;> simp
    | panicked => simp

/-- The first branch of the URL builder: an empty `maxID` yields the
token-free search URL. -/
theorem buildURL_empty (base mn : String) : buildURL base "" mn = base := by
  simp [buildURL]

/-- The second branch of the URL builder: a non-empty `maxID` appends
the `TWEET-maxID-minID` cursor token. -/
theorem buildURL_token (base mx mn : String) (h : mx ≠ "") :
    buildURL base mx mn = base ++ "&max_position=TWEET-" ++ mx ++ "-" ++ mn := by
  simp [buildURL, h]

example : splitSlash "/duncanmak/status/5602929333" =
    ["", "duncanmak", "status", "5602929333"] := by decide

example : pass1 [some "/duncanmak/status/5602929333"] =
    [⟨"https://www.twitter.com/duncanmak/status/5602929333", "duncanmak", 0, "",
      "5602929333"⟩] := by decide

example : goTrim "  hi there \n" = "hi there" := by decide

example : fixBase = "https://twitter.com/i/search/timeline?f=tweets&vertical=default&q=%23golang%20since:2009-11-10%20until:2009-11-11&src=typd" := by decide

/-! ## Claim theorems -/

/-- C1 (code bug): the claim says extraction returns one record per
identity fragment regardless of how many content fragments the page
has. But on a page with one identity fragment and two non-empty
content fragments, pass 3 reaches index 1 with `len(tweets) = 1`: the
Go guard `i > len(tweets)` does not fire at `i = len(tweets)`, so the
code writes `tweets[1]` and panics with an index-out-of-range runtime
error instead of returning the one-record sequence. -/
theorem c1_excess_content_fragment_panics :
    Scrape.tweets (fun _ => none) c1doc = .panicked := by decide

/-- C2: if, after processing a page, the updated `maxID` (the page's
last record ID) equals the updated `minID`, the loop returns right
there with everything accumulated plus this page, and this iteration
contributes exactly the single fetch already issued — no further fetch
happens. -/
theorem c2_cursor_equals_floor_terminates (src : String → GoRes (List Tweet))
    (base : String) (fuel : Nat) (st : LoopSt) (t0 : Tweet) (rest : List Tweet)
    (hsrc : src (buildURL base st.maxID st.minID) = .ok (t0 :: rest))
    (heq : ((t0 :: rest).getLast (List.cons_ne_nil t0 rest)).id =
      (if st.minID = "" then t0.id else st.minID)) :
    Scrape.TweetsGo src base (fuel + 1) st =
      (.ok (st.acc ++ (t0 :: rest)),
       [⟨buildURL base st.maxID st.minID, st.maxID, st.minID⟩],
       ⟨if st.minID = "" then t0.id else st.minID,
        ((t0 :: rest).getLast (List.cons_ne_nil t0 rest)).id,
        st.acc ++ (t0 :: rest),
        if st.minID = "" then st.minSets + 1 else st.minSets⟩) := by
  simp only [Scrape.TweetsGo]
  rw [hsrc]
  simp [heq]

/-- Witness for C2 at a one-record page whose single record resolves
back to the floor. -/
theorem c2_cursor_equals_floor_terminates_witness :
    Scrape.TweetsGo (fun _ => .ok [tweetX]) "B" 1 ⟨"", "", [], 0⟩ =
      (.ok [tweetX], [⟨"B", "", ""⟩], ⟨"x", "x", [tweetX], 1⟩) := by
  have h := c2_cursor_equals_floor_terminates (fun _ => .ok [tweetX]) "B" 0
    ⟨"", "", [], 0⟩ tweetX [] (by decide) (by decide)
  exact h.trans (by decide)

/-- C3 (code bug): the claim says every pass-2 fragment index `i ≥ N`
is discarded without writing. In the code the guard is `i > len(tweets)`:
on a page with one identity fragment and two timestamp fragments
bearing a `title` attribute, index 1 passes the guard, the code writes
`tweets[1].Timestamp` and panics with an index-out-of-range runtime
error — a pass-2 write out of bounds. -/
theorem c3_excess_timestamp_fragment_panics :
    Scrape.tweets (fun _ => none) c3doc = .panicked := by decide

/-- C6: a hard (transport or payload-decode) failure on any fetch makes
the loop return immediately with `return nil, err`: the result is the
bare error, the accumulated records in `st.acc` are discarded, and no
further fetch is issued after the failing one. -/
theorem c6_hard_failure_aborts_discarding (src : String → GoRes (List Tweet))
    (base : String) (fuel : Nat) (st : LoopSt) (m : String)
    (h : src (buildURL base st.maxID st.minID) = .fail (.hard m)) :
    Scrape.TweetsGo src base (fuel + 1) st =
      (.err (.hard m), [⟨buildURL base st.maxID st.minID, st.maxID, st.minID⟩],
       st) := by
  simp only [Scrape.TweetsGo]
  rw [h]

/-- Witness for C6: a failing fetch while one record is already
accumulated returns the error and not the accumulated record. -/
theorem c6_hard_failure_aborts_discarding_witness :
    Scrape.TweetsGo (fun _ => .fail (.hard "boom")) "B" 1 ⟨"m", "x", [tweetA], 1⟩ =
      (.err (.hard "boom"), [⟨buildURL "B" "x" "m", "x", "m"⟩],
       ⟨"m", "x", [tweetA], 1⟩) :=
  c6_hard_failure_aborts_discarding (fun _ => .fail (.hard "boom")) "B" 0
    ⟨"m", "x", [tweetA], 1⟩ "boom" rfl

/-- C7: a page with zero identity fragments produces the `errNoTweets`
sentinel, and the loop treats that sentinel as exhaustion, not error:
it stops and returns everything accumulated so far with a nil error. -/
theorem c7_no_tweets_is_exhaustion :
    (∀ (parse : String → Option Nat) (d : Doc), d.identity = [] →
      Scrape.tweets parse d = .fail .noTweets) ∧
    (∀ (src : String → GoRes (List Tweet)) (base : String) (fuel : Nat)
      (st : LoopSt), src (buildURL base st.maxID st.minID) = .fail .noTweets →
      Scrape.TweetsGo src base (fuel + 1) st =
        (.ok st.acc, [⟨buildURL base st.maxID st.minID, st.maxID, st.minID⟩],
         st)) := by
  constructor
  · intro parse d h
    unfold Scrape.tweets
    rw [if_pos]
    rw [h]
    rfl
  · intro src base fuel st h
    simp only [Scrape.TweetsGo]
    rw [h]

/-- Witness for C7: an empty page signals `noTweets`, and the loop
returns the one already-accumulated record with a nil error. -/
theorem c7_no_tweets_is_exhaustion_witness :
    Scrape.tweets (fun _ => none) ⟨[], [some "t"], ["x"]⟩ = .fail .noTweets ∧
    Scrape.TweetsGo (fun _ => .fail .noTweets) "B" 1 ⟨"m", "x", [tweetA], 1⟩ =
      (.ok [tweetA], [⟨buildURL "B" "x" "m", "x", "m"⟩], ⟨"m", "x", [tweetA], 1⟩) :=
  ⟨c7_no_tweets_is_exhaustion.1 (fun _ => none) ⟨[], [some "t"], ["x"]⟩ rfl,
   c7_no_tweets_is_exhaustion.2 (fun _ => .fail .noTweets) "B" 0
     ⟨"m", "x", [tweetA], 1⟩ rfl⟩

/-- C8: pass 1 creates one record per identity fragment, and a fragment
whose permalink attribute is missing or whose slash-split has fewer
than the expected 4 pieces yields the all-empty placeholder record at
exactly its own position — the sequence is never shortened. -/
theorem c8_malformed_fragment_placeholder (l : List (Option String)) :
    (pass1 l).length = l.length ∧
    ∀ (i : Nat) (a : Option String), l.get? i = some a → badFrag a = true →
      (pass1 l).get? i = some emptyTweet := by
  refine ⟨pass1_length l, ?_⟩
  induction l with
  | nil => intro i a h; cases i <;> cases h
  | cons hd tl ih =>
    intro i a hget hbad
    cases i with
    | zero =>
      simp only [List.get?] at hget
      cases hget
      cases hd with
      | none => rfl
      | some p =>
        have hlt : (splitSlash p).length < 4 := by simpa [badFrag] using hbad
        simp [pass1, if_pos hlt]
    | succ j =>
      simp only [List.get?] at hget
      have hrec := ih j a hget hbad
      cases hd with
      | none => simpa [pass1] using hrec
      | some p =>
        simp only [pass1]
        split <;> simpa using hrec

/-- Witness for C8 at a two-fragment page whose first permalink path is
too short and whose second permalink attribute is missing. -/
theorem c8_malformed_fragment_placeholder_witness :
    (pass1 [some "abc", none]).length = 2 ∧
    (pass1 [some "abc", none]).get? 0 = some emptyTweet ∧
    (pass1 [some "abc", none]).get? 1 = some emptyTweet :=
  ⟨(c8_malformed_fragment_placeholder [some "abc", none]).1,
   (c8_malformed_fragment_placeholder [some "abc", none]).2 0 (some "abc") rfl
     (by decide),
   (c8_malformed_fragment_placeholder [some "abc", none]).2 1 none rfl rfl⟩

/-- C10: extraction never returns an empty batch without error (pass 1
appends one record per identity fragment, and an empty selection takes
the `errNoTweets` path instead), so the paginator's reads of `tw[0]`
and `tw[len(tw)-1]` are always in bounds: the loop composed with the
real extractor can never reach its empty-batch indexing panic. -/
theorem c10_batches_nonempty_indexing_safe :
    (∀ (parse : String → Option Nat) (d : Doc) (tws : List Tweet),
      Scrape.tweets parse d = .ok tws → tws ≠ []) ∧
    (∀ (fetch : String → GoRes Doc) (parse : String → Option Nat)
      (base : String) (fuel : Nat) (st : LoopSt),
      (Scrape.TweetsGo (Scrape.srcOf fetch parse) base fuel st).1 ≠
        .emptyBatch) := by
  constructor
  · exact tweets_ok_ne_nil
  · intro fetch parse base fuel st
    apply TweetsGo_no_emptyBatch
    intro u tws h
    unfold Scrape.srcOf at h
    cases hf : fetch u with
    | ok d => rw [hf] at h; exact tweets_ok_ne_nil parse d tws h
    | fail e => rw [hf] at h; cases h
    | panicked => rw [hf] at h; cases h

/-- Witness for C10: a concrete extraction returning a batch that is
indeed non-empty, and a concrete run that does not hit the empty-batch
panic. -/
theorem c10_batches_nonempty_indexing_safe_witness :
    ([emptyTweet] : List Tweet) ≠ [] ∧
    (Scrape.TweetsGo (Scrape.srcOf (fun _ => .fail (.hard "x")) (fun _ => none))
      "B" 1 ⟨"", "", [], 0⟩).1 ≠ .emptyBatch :=
  ⟨c10_batches_nonempty_indexing_safe.1 (fun _ => none) ⟨[none], [], []⟩
     [emptyTweet] rfl,
   c10_batches_nonempty_indexing_safe.2 (fun _ => .fail (.hard "x"))
     (fun _ => none) "B" 1 ⟨"", "", [], 0⟩⟩

/-- C4 (counterexample): the claim says every fetch after the first
carries a cursor token `TWEET-cursorID-floorID`. Against a source whose
first page ends in a placeholder record with an empty ID, the second
fetch is built with `maxID = ""` and so carries no `max_position`
cursor token at all: both issued fetch URLs equal the bare search URL,
which does not even contain the substring `max_position`. -/
theorem c4_counterexample_tokenless_second_fetch :
    (Scrape.Tweets c4src fixBase 2).2.1.map Fetch.url = [fixBase, fixBase] ∧
    decide ("max_position".data <:+: fixBase.data) = false := by
  refine ⟨by decide, by decide⟩

/-- C4 (amended): the first fetch of an invocation is built with both
cursors empty, so its URL is the bare search URL with no cursor token;
every issued fetch's URL is `buildURL` of the cursor values current at
that fetch, where an empty `maxID` yields the bare URL and a non-empty
`maxID` appends the token `TWEET-maxID-minID`; and consecutive fetches
satisfy `stepRel`: the later fetch's `maxID` is the last record ID of
the page returned by the earlier fetch (so a page ending in an
empty-ID record yields a token-free next fetch), and its `minID` is
the earlier one, updated from the page's first record only while still
empty. -/
theorem c4_amended_cursor_token_shape (src : String → GoRes (List Tweet))
    (base : String) (fuel : Nat) :
    (∀ mn, buildURL base "" mn = base) ∧
    (∀ mx mn, mx ≠ "" →
      buildURL base mx mn = base ++ "&max_position=TWEET-" ++ mx ++ "-" ++ mn) ∧
    (∀ fe ∈ (Scrape.Tweets src base fuel).2.1,
      fe.url = buildURL base fe.maxAt fe.minAt) ∧
    (∀ fe ∈ (Scrape.Tweets src base fuel).2.1.head?,
      fe.maxAt = "" ∧ fe.minAt = "") ∧
    List.Chain' (stepRel src) (Scrape.Tweets src base fuel).2.1 := by
  have h := TweetsGo_trace_inv src base fuel ⟨"", "", [], 0⟩
  exact ⟨buildURL_empty base, fun mx mn hmx => buildURL_token base mx mn hmx,
    h.1, h.2.1, h.2.2⟩

/-- Witness for C4 (amended) on a concrete one-fetch run. -/
theorem c4_amended_cursor_token_shape_witness :
    buildURL "B" "" "" = "B" ∧
    buildURL "B" "x" "m" = "B" ++ "&max_position=TWEET-" ++ "x" ++ "-" ++ "m" ∧
    (⟨"B", "", ""⟩ : Fetch).url =
      buildURL "B" (⟨"B", "", ""⟩ : Fetch).maxAt (⟨"B", "", ""⟩ : Fetch).minAt := by
  have h := c4_amended_cursor_token_shape (fun _ => .fail (.hard "boom")) "B" 1
  exact ⟨h.1 "", h.2.1 "x" "m" (by decide), h.2.2.1 ⟨"B", "", ""⟩ (by decide)⟩

/-- C5 (counterexample): the claim says `minID` is set exactly once, on
the first non-empty page, from that page's first record's ID. Against a
source whose first page starts with a placeholder record (ID `""`),
the assignment `minID = tw[0].ID` runs on the first page yet leaves
`minID` empty, so it runs again on the second page: the ghost counter
records two assignments and the final `minID` is `"c"`, the first
record of the *second* page — not the first record of the first
non-empty page, whose ID is `""`. -/
theorem c5_counterexample_minID_assigned_twice :
    (Scrape.Tweets c5src fixBase 3).2.2.minSets = 2 ∧
    (Scrape.Tweets c5src fixBase 3).2.2.minID = "c" ∧
    c5src fixBase = .ok [emptyTweet, tweetA] ∧
    emptyTweet.id = "" := by
  refine ⟨by decide, by decide, by decide, rfl⟩

/-- C5 (amended): once `minID` holds a non-empty value it is never
assigned again: from any state with a non-empty `minID`, the rest of
the run keeps that exact value, performs no further `minID` assignment
(the ghost counter is unchanged), and builds every remaining fetch with
it. While `minID` is still empty it is (re)assigned from each processed
page's first record, as the `stepRel` chain of C4 records. -/
theorem c5_amended_minID_persists (src : String → GoRes (List Tweet))
    (base : String) (fuel : Nat) (st : LoopSt) (h : st.minID ≠ "") :
    (Scrape.TweetsGo src base fuel st).2.2.minID = st.minID ∧
    (Scrape.TweetsGo src base fuel st).2.2.minSets = st.minSets ∧
    ∀ fe ∈ (Scrape.TweetsGo src base fuel st).2.1, fe.minAt = st.minID :=
  TweetsGo_min_persist src base fuel st h

/-- Witness for C5 (amended) from a state whose `minID` is `"m"`. -/
theorem c5_amended_minID_persists_witness :
    (Scrape.TweetsGo (fun _ => .fail .noTweets) "B" 1 ⟨"m", "x", [], 3⟩).2.2.minID
      = "m" ∧
    (Scrape.TweetsGo (fun _ => .fail .noTweets) "B" 1
      ⟨"m", "x", [], 3⟩).2.2.minSets = 3 ∧
    ∀ fe ∈ (Scrape.TweetsGo (fun _ => .fail .noTweets) "B" 1
      ⟨"m", "x", [], 3⟩).2.1, fe.minAt = "m" :=
  c5_amended_minID_persists (fun _ => .fail .noTweets) "B" 1 ⟨"m", "x", [], 3⟩
    (by decide)

/-- C9 (counterexample): for the package-level `Tweets`, whose `minID`
is a package-wide variable, two invocations with identical arguments
against the same unchanged source can return different sequences. The
source's first page starts with a placeholder record (ID `""`): the
first run leaves `minID` empty through page 1, fetches the cursor URL
`TWEET-a-` (empty floor), receives record `"b"` and returns three
records, leaving the global `minID = "b"`. The second run starts with
the leaked `minID = "b"`, so its second fetch asks for `TWEET-a-b`
instead — a different URL, for which the same source has no page — and
returns only two records. -/
theorem c9_counterexample_global_minID_leak :
    (pkgTweets c9src fixBase "" 4).1 = .ok [emptyTweet, tweetA, tweetB] ∧
    (pkgTweets c9src fixBase "" 4).2.2.minID = "b" ∧
    (pkgTweets c9src fixBase "b" 4).1 = .ok [emptyTweet, tweetA] ∧
    decide ((.ok [emptyTweet, tweetA, tweetB] : LoopRes) =
      .ok [emptyTweet, tweetA]) = false := by
  refine ⟨by decide, by decide, by decide, by decide⟩

/-- C9 (amended): re-running the package-level `Tweets` with identical
arguments against an unchanged source — the second run starting from
the `minID` value the first run left in the package-wide variable —
returns the same record sequence, provided the first fetched page, if
it yields records, yields a first record with a non-empty ID (so that
the global `minID` is fixed on page 1; the counterexample shows the
claim fails without this proviso). The method variant
(`Scrape.Tweets`) owns its cursor state per invocation and carries
no cross-invocation input at all, so its determinism is structural. -/
theorem c9_amended_idempotence_conditional (src : String → GoRes (List Tweet))
    (base : String) (fuel : Nat)
    (hfirst : ∀ t0 rest, src base = .ok (t0 :: rest) → t0.id ≠ "") :
    (pkgTweets src base ((pkgTweets src base "" fuel).2.2.minID) fuel).1 =
      (pkgTweets src base "" fuel).1 := by
  cases fuel with
  | zero => rfl
  | succ n =>
    simp only [pkgTweets, Scrape.TweetsGo, buildURL_empty]
    cases h0 : src base with
    | ok tws =>
      cases tws with
      | nil => simp [h0]
      | cons t0 rest =>
        have hx : t0.id ≠ "" := hfirst t0 rest h0
        simp only [h0]
        by_cases hL : ((t0 :: rest).getLast (List.cons_ne_nil t0 rest)).id = t0.id
        · simp [hL, hx]
        · simp only [reduceIte, if_neg hL, ite_self]
          have hM := (TweetsGo_min_persist src base n
            ⟨t0.id, ((t0 :: rest).getLast (List.cons_ne_nil t0 rest)).id,
             [] ++ (t0 :: rest), 0 + 1⟩ hx).1
          rw [hM]
          simp only [if_neg hx, if_neg hL]
          exact TweetsGo_fst_sets_irrel src base n _ _ _ _ _
    | fail e => cases e <;> simp [h0]
    | panicked => simp [h0]

/-- Witness for C9 (amended) against a source whose single page is the
single record `"a"`. -/
theorem c9_amended_idempotence_conditional_witness :
    (pkgTweets (fun _ => .ok [tweetA]) "B"
      ((pkgTweets (fun _ => .ok [tweetA]) "B" "" 2).2.2.minID) 2).1 =
      (pkgTweets (fun _ => .ok [tweetA]) "B" "" 2).1 := by
  apply c9_amended_idempotence_conditional
  intro t0 rest h
  simp only [GoRes.ok.injEq, List.cons.injEq] at h
  rw [← h.1]
  decide
